import Mathlib

/-
Verification of the fujinetGameAlerts event classification and notification
engine.  The Python sources are shallowly embedded: SQLite tables become
lists of row structures, request handlers become pure functions from a
request payload and a database state to a new state plus a response, and
the outcome of every outbound send (Discord webhook, Twilio SMS and
WhatsApp) is supplied by an explicit environment of boolean outcome
functions.  Timestamps are natural numbers counting seconds; the 24 hour
window of the source is 86400 seconds.
-/

/-- A decoded JSON ping body as read by request.get_json(): every field is
optional because a JSON object may omit any key. -/
structure PingData where
  game : Option String
  appkey : Option Int
  server : Option String
  region : Option String
  serverurl : Option String
  status : Option String
  maxplayers : Option Int
  curplayers : Option Int
deriving Repr, DecidableEq

/-- One row of the gameEvents table (columns as created by the schema in
gas.py and v2/db.py).  Columns not supplied by an INSERT are NULL, hence
Option. -/
structure EventRow where
  created : Nat
  event_type : String
  game : Option String
  appkey : Option Int
  server : Option String
  region : Option String
  serverurl : Option String
  status : Option String
  maxplayers : Option Int
  curplayers : Option Int
deriving Repr, DecidableEq

/-- One row of the playerTracking table (game TEXT UNIQUE, curplayers,
total_players, created). -/
structure PlayerRow where
  game : String
  curplayers : Int
  total_players : Int
  created : Nat
deriving Repr, DecidableEq

/-- One row of the serverTracking table (created, serverurl, currentplayers,
total_updates). -/
structure ServerRow where
  created : Nat
  serverurl : String
  currentplayers : Int
  total_updates : Int
deriving Repr, DecidableEq

/-- One row of the users table: phone_number, opt_in, and the channel type
column (S for SMS, W for WhatsApp); the column is named type in SQL, which is
a Lean keyword, so it is called utype here. -/
structure UserRow where
  phone_number : String
  opt_in : Bool
  utype : String
deriving Repr, DecidableEq

/-- One row of the v2 globalSync table (last_sync, sync_type). -/
structure GlobalSyncRow where
  last_sync : Nat
  sync_type : String
deriving Repr, DecidableEq

/-- Outbound channels used by the dispatchers. -/
inductive Chan
  | discord
  | sms
  | whatsapp
deriving Repr, DecidableEq, BEq

/-- Record of one attempted outbound send: the channel, the target (phone
number, or the literal webhook for Discord), the message body, and whether
the attempt succeeded. -/
structure SendRec where
  channel : Chan
  target : String
  body : String
  ok : Bool
deriving Repr, DecidableEq

/-- Environment of delivery outcomes: whether the Discord webhook call
fails, and for each phone number whether the Twilio SMS or WhatsApp send
raises. -/
structure DispatchEnv where
  discordFail : Bool
  smsFail : String → Bool
  waFail : String → Bool

/-- Split a character list at every occurrence of the separator. -/
def splitOnChar (c : Char) : List Char → List (List Char)
  | [] => [[]]
  | x :: xs =>
    if x = c then [] :: splitOnChar c xs
    else
      match splitOnChar c xs with
      | [] => [[x]]
      | g :: gs => (x :: g) :: gs

/-- extract_url_and_table_param from gas.py / v2/utils.py: urlparse keeps
scheme, host and path as the base URL (everything before the first question
mark, for absolute URLs without fragments), and parse_qs yields the first
value of the table query parameter, dropping blank values. -/
def extract_url_and_table_param (url : String) : String × Option String :=
  match splitOnChar '?' url.toList with
  | [] => (url, none)
  | base :: rest =>
    match rest with
    | [] => (String.mk base, none)
    | _ =>
      let query := List.intercalate ['?'] rest
      let pairs := splitOnChar '&' query
      let tbl := pairs.findSome? (fun kv =>
        match splitOnChar '=' kv with
        | [k, v] => if k = "table".toList ∧ v ≠ [] then some (String.mk v) else none
        | _ => none)
      (String.mk base, tbl)

/-- Insert an event row into a list sorted by created descending, placing it
before the first row whose created stamp is not larger. -/
def insertDesc (e : EventRow) : List EventRow → List EventRow
  | [] => [e]
  | x :: xs => if x.created ≤ e.created then e :: x :: xs else x :: insertDesc e xs

/-- Stable sort by created descending (ties keep input order), modelling
ORDER BY created DESC. -/
def sortDesc : List EventRow → List EventRow
  | [] => []
  | x :: xs => insertDesc x (sortDesc xs)

/-- SELECT curplayers FROM gameEvents WHERE serverurl = url ORDER BY created
DESC: the curplayers column of the matching rows, most recent first.  Rows
with equal timestamps keep the later inserted row first. -/
def recentCounts (events : List EventRow) (url : String) : List (Option Int) :=
  (sortDesc ((events.filter (fun e => e.serverurl == some url)).reverse)).map
    (fun e => e.curplayers)

namespace Gas

/-- The alert messages gas.py can build, kept structured: the base URL and
table parameter extracted from the server URL, and the player total quoted
in the message. -/
inductive Alert
  | playerJoin (base_url : String) (table_param : Option String) (total : Int)
  | playerLeave (base_url : String) (table_param : Option String) (total : Int)
  | lastPlayerLeft (base_url : String)
  | serverDeleted (base_url : String) (table_param : Option String)
deriving Repr, DecidableEq

/-- Python prints None for a missing table parameter inside an f-string. -/
def optText : Option String → String
  | none => "None"
  | some s => s

/-- The literal message text of each alert, following the f-strings of
gas.py. -/
def alertText : Alert → String
  | .playerJoin b t n =>
      "🧑‍🤝‍🧑 Player event - GameServer: [" ++ b ++ "] running game [" ++ optText t ++
        "] player joined. Total players: [" ++ toString n ++ "]"
  | .playerLeave b t n =>
      "💨 Player event - GameServer: [" ++ b ++ "] running game [" ++ optText t ++
        "] player left. Total players: [" ++ toString n ++ "]"
  | .lastPlayerLeft b =>
      "🌐 Server event- GameServer: [" ++ b ++ "] the last player has left the game."
  | .serverDeleted b t =>
      "🌐 Server event - GameServer: [" ++ b ++ "] running game [" ++ optText t ++
        "] has been deleted from Lobby."

/-- HTTP response of the /game handlers: 200 on success, 400 when the inner
try/except returns an error. -/
inductive Resp
  | ok200
  | err400
deriving Repr, DecidableEq

/-- The SQLite database of gas.py. -/
structure GasState where
  gameEvents : List EventRow
  playerTracking : List PlayerRow
  serverTracking : List ServerRow
  users : List UserRow
deriving Repr, DecidableEq

/-- Result of one request: the database after the handler, the HTTP
response, the single alert computed (if any), and the outbound sends that
were attempted, in order. -/
structure GasResult where
  state : GasState
  resp : Resp
  alert : Option Alert
  sends : List SendRec
deriving Repr

/-- The required-field validation of json_post: required_fields =
[game, appkey, server, region], listing the missing ones in order. -/
def missing_fields (d : PingData) : List String :=
  (if d.game.isNone then ["game"] else []) ++
  (if d.appkey.isNone then ["appkey"] else []) ++
  (if d.server.isNone then ["server"] else []) ++
  (if d.region.isNone then ["region"] else [])

/-- The gameEvents row written by json_post: serverurl and status via
data.get (NULL when absent), maxplayers and curplayers via data.get with
default 0. -/
def postRow (now : Nat) (d : PingData) : EventRow :=
  { created := now, event_type := "POST", game := d.game, appkey := d.appkey,
    server := d.server, region := d.region, serverurl := d.serverurl,
    status := d.status, maxplayers := some (d.maxplayers.getD 0),
    curplayers := some (d.curplayers.getD 0) }

/-- INSERT INTO gameEvents of json_post. -/
def insertGameEvent (now : Nat) (d : PingData) (s : GasState) : GasState :=
  { s with gameEvents := s.gameEvents ++ [postRow now d] }

/-- The playerTracking block of json_post: update curplayers and increment
total_players when the game exists, otherwise insert with total_players 1. -/
def playerTrackingUpsert (now : Nat) (g : String) (cur : Int) (s : GasState) : GasState :=
  match s.playerTracking.find? (fun r => r.game == g) with
  | some r =>
    { s with playerTracking := s.playerTracking.map (fun q =>
        if q.game == g then { q with curplayers := cur, total_players := r.total_players + 1 }
        else q) }
  | none =>
    { s with playerTracking := s.playerTracking ++
        [{ game := g, curplayers := cur, total_players := 1, created := now }] }

/-- The serverTracking block of json_post: update currentplayers and
increment total_updates when the server URL exists, otherwise insert with
total_updates 1. -/
def serverTrackingUpsert (now : Nat) (url : String) (cur : Int) (s : GasState) : GasState :=
  match s.serverTracking.find? (fun r => r.serverurl == url) with
  | some r =>
    { s with serverTracking := s.serverTracking.map (fun q =>
        if q.serverurl == url then
          { q with currentplayers := cur, total_updates := r.total_updates + 1 }
        else q) }
  | none =>
    { s with serverTracking := s.serverTracking ++
        [{ created := now, serverurl := url, currentplayers := cur, total_updates := 1 }] }

/-- The three writes of json_post in source order: gameEvents insert, then
the playerTracking upsert, then the serverTracking upsert. -/
def tracked (now : Nat) (d : PingData) (url g : String) (cur : Int) (s : GasState) : GasState :=
  serverTrackingUpsert now url cur (playerTrackingUpsert now g cur (insertGameEvent now d s))

/-- The two most recent logged counts for a server URL (LIMIT 2). -/
def recentCountsQuery (s : GasState) (url : String) : List (Option Int) :=
  (recentCounts s.gameEvents url).take 2

/-- The alert decision of json_post over the already-updated state.  The
second component is true when the Python code would raise: comparing a NULL
curplayers (a DELETE log row among the two most recent) with < or > is a
TypeError, so no alert is produced and the handler answers 400. -/
def computeAlert (s3 : GasState) (url base : String) (tbl : Option String) (cur : Int) :
    Option Alert × Bool :=
  if cur ≠ 0 then
    match recentCountsQuery s3 url with
    | [cOpt, pOpt] =>
      match pOpt, cOpt with
      | some p, some c =>
        if p < c then (some (.playerJoin base tbl c), false)
        else if p > c then (some (.playerLeave base tbl c), false)
        else (none, false)
      | _, _ => (none, true)
    | _ => (none, false)
  else
    match s3.serverTracking.find? (fun r => r.serverurl == url) with
    | some row =>
      if row.currentplayers ≠ 0 then (some (.lastPlayerLeft base), false)
      else (none, false)
    | none => (none, false)

/-- SELECT phone_number FROM users WHERE opt_in=1 AND type=t. -/
def optedIn (s : GasState) (t : String) : List String :=
  (s.users.filter (fun u => u.opt_in && u.utype == t)).map (fun u => u.phone_number)

/-- The send loop of json_post for one channel: send_sms / send_whatsapp
re-raise on failure, so the first failing recipient aborts the rest of the
loop; the second component is false when the loop raised. -/
def sendLoop (fail : String → Bool) (ch : Chan) (body : String) :
    List String → List SendRec × Bool
  | [] => ([], true)
  | p :: ps =>
    if fail p then ([⟨ch, p, body, false⟩], false)
    else
      let r := sendLoop fail ch body ps
      (⟨ch, p, body, true⟩ :: r.1, r.2)

/-- The fan-out of json_post: Discord first (send_discord_message catches
its own errors and never raises), then every opted-in SMS recipient, then
every opted-in WhatsApp recipient; a raise inside either Twilio loop is
caught by the outer except, which answers 400. -/
def dispatch (env : DispatchEnv) (s3 : GasState) (a : Option Alert) :
    Resp × List SendRec :=
  match a with
  | none => (.ok200, [])
  | some al =>
    let body := alertText al
    let d : SendRec := ⟨.discord, "webhook", body, !env.discordFail⟩
    let sms := sendLoop env.smsFail .sms body (optedIn s3 "S")
    if sms.2 then
      let wa := sendLoop env.waFail .whatsapp body (optedIn s3 "W")
      (if wa.2 then .ok200 else .err400, d :: sms.1 ++ wa.1)
    else (.err400, d :: sms.1)

/-- The POST /game handler of gas.py.  Control flow of the source: validate
required fields (no write yet); insert the gameEvents row and commit;
data[serverurl] (KeyError answers 400, the log row stays); playerTracking
and serverTracking upserts (data[game] and data[curplayers] KeyError
answers 400 after the log insert); then the non-zero / zero alert decision
over the updated state; then the fan-out. -/
def json_post (now : Nat) (env : DispatchEnv) (data : PingData) (s : GasState) : GasResult :=
  if missing_fields data ≠ [] then ⟨s, .err400, none, []⟩
  else
    let s1 := insertGameEvent now data s
    match data.serverurl with
    | none => ⟨s1, .err400, none, []⟩
    | some url =>
      let bt := extract_url_and_table_param url
      match data.game, data.curplayers with
      | some g, some cur =>
        let s3 := tracked now data url g cur s
        match computeAlert s3 url bt.1 bt.2 cur with
        | (_, true) => ⟨s3, .err400, none, []⟩
        | (a, false) => ⟨s3, (dispatch env s3 a).1, a, (dispatch env s3 a).2⟩
      | _, _ => ⟨s1, .err400, none, []⟩

/-- The DELETE log row inserted by delete_event: only created, serverurl
and event_type are supplied; every other column is NULL. -/
def deleteRow (now : Nat) (url : String) : EventRow :=
  { created := now, event_type := "DELETE", game := none, appkey := none,
    server := none, region := none, serverurl := some url, status := none,
    maxplayers := none, curplayers := none }

/-- The DELETE /game handler of gas.py: reject a missing or empty serverurl
(Python truthiness) before any write, otherwise append one DELETE log row,
build the deletion alert and send it to Discord only. -/
def delete_event (now : Nat) (env : DispatchEnv) (data : PingData) (s : GasState) : GasResult :=
  match data.serverurl with
  | none => ⟨s, .err400, none, []⟩
  | some url =>
    if url = "" then ⟨s, .err400, none, []⟩
    else
      let s1 := { s with gameEvents := s.gameEvents ++ [deleteRow now url] }
      let bt := extract_url_and_table_param url
      let al := Alert.serverDeleted bt.1 bt.2
      ⟨s1, .ok200, some al, [⟨.discord, "webhook", alertText al, !env.discordFail⟩]⟩

end Gas

namespace V2

/-- Structured alert messages of the v2 package (server_sync.py and
event_logic.py). -/
inductive SyncAlert
  | lastPlayerLeft (game_name : String)
  | dailyStatus (servers : List (String × String))
  | newServerZero (serverurl game_name : String)
  | playerCount (game_name : String) (curplayers : Int)
deriving Repr, DecidableEq

/-- The literal message text of each v2 alert, following the f-strings of
the source. -/
def syncAlertText : SyncAlert → String
  | .lastPlayerLeft g =>
      "🌐 Server event- GameServer: [" ++ g ++ "] the last player has left the game."
  | .dailyStatus servers =>
      match servers with
      | [] => "🌐 Daily Server Status Update\nNo active game servers at this time."
      | _ =>
        "🌐 Daily Server Status Update\nCurrently active game servers:\n" ++
          String.intercalate "\n"
            (servers.map (fun p => "- [" ++ p.2 ++ "] at " ++ p.1))
  | .newServerZero u g =>
      "🌐 Server event- GameServer: [" ++ u ++ "] running game [" ++ g ++
        "] has 0 players currently."
  | .playerCount g n =>
      "🎮 Player event- Game: [" ++ g ++ "] now has " ++ toString n ++
        " player(s) currently online."

/-- The v2 SQLite database: gameEvents, serverTracking, globalSync and
users tables. -/
structure Db where
  gameEvents : List EventRow
  serverTracking : List ServerRow
  globalSync : List GlobalSyncRow
  users : List UserRow
deriving Repr, DecidableEq

/-- Maximum of a list of naturals, none when empty: the value fetched by
ORDER BY last_sync DESC LIMIT 1. -/
def maxNat? : List Nat → Option Nat
  | [] => none
  | x :: xs => some (xs.foldl Nat.max x)

/-- The last_sync value of the most recent daily row of globalSync. -/
def lastDailySync? (db : Db) : Option Nat :=
  maxNat? ((db.globalSync.filter (fun r => r.sync_type == "daily")).map
    (fun r => r.last_sync))

/-- check_global_sync of v2/server_sync.py: with no daily row, insert one at
now and report true; with a daily row older than 24 hours (86400 seconds),
advance every daily row to now and report true; otherwise report false. -/
def check_global_sync (now : Nat) (db : Db) : Bool × Db :=
  match lastDailySync? db with
  | none =>
    (true, { db with globalSync := db.globalSync ++ [⟨now, "daily"⟩] })
  | some t =>
    if t + 86400 ≤ now then
      (true, { db with globalSync := db.globalSync.map (fun r =>
          if r.sync_type == "daily" then { r with last_sync := now } else r) })
    else (false, db)

/-- get_active_servers of v2/server_sync.py: SELECT DISTINCT serverurl, game
FROM gameEvents WHERE status = active ORDER BY game. -/
def get_active_servers (db : Db) : List (String × String) :=
  (((db.gameEvents.filter (fun e => e.status == some "active")).map
      (fun e => (e.serverurl.getD "", e.game.getD ""))).eraseDups).mergeSort
    (fun a b => decide (a.2 ≤ b.2))

/-- evaluate_server_sync of v2/server_sync.py: with a tracking row whose
currentplayers is non-zero and a zero ping, the last-player-left alert;
with a zero ping otherwise, the daily status alert exactly when
check_global_sync reports true; with no tracking row, the new-empty-server
alert.  This runs before update_server_tracking in handle_game_event, so
the row read here is the pre-update state. -/
def evaluate_server_sync (now : Nat) (curplayers : Int) (serverurl game_name : String)
    (db : Db) : Option SyncAlert × Db :=
  match db.serverTracking.find? (fun r => r.serverurl == serverurl) with
  | some row =>
    if row.currentplayers ≠ 0 ∧ curplayers = 0 then
      (some (.lastPlayerLeft game_name), db)
    else if curplayers = 0 then
      match check_global_sync now db with
      | (true, db2) => (some (.dailyStatus (get_active_servers db2)), db2)
      | (false, db2) => (none, db2)
    else (none, db)
  | none => (some (.newServerZero serverurl game_name), db)

/-- Python exceptions that the v2 pipeline can raise. -/
inductive PyErr
  | typeError (msg : String)
  | nameError (msg : String)
  | keyError (key : String)
  | connectionError
deriving Repr, DecidableEq

/-- v2/db.py declares def get_db(app): one required positional parameter. -/
def get_db_params : Nat := 1

/-- The call db = get_db() at the top of handle_game_event in
v2/event_logic.py supplies zero arguments to get_db, which requires the
Flask app parameter, so Python raises TypeError before any later statement
of handle_game_event executes. -/
def get_db_call_noargs : Except PyErr Unit :=
  if 0 < get_db_params then
    .error (.typeError "get_db() missing 1 required positional argument: app")
  else .ok ()

/-- evaluate_event_for_notification of v2/event_logic.py: fetch the two most
recent logged counts for the server URL; when two exist and differ, the
player-count alert; otherwise, when the ping is zero, the last-player-left
alert; otherwise none.  The comparison uses Python != which tolerates NULL,
so no TypeError here. -/
def evaluate_event_for_notification (data : PingData) (db : Db) : Option SyncAlert :=
  match data.curplayers, data.game, data.serverurl with
  | some curplayers, some game_name, some serverurl =>
    match (recentCounts db.gameEvents serverurl).take 2 with
    | [cOpt, pOpt] =>
      if cOpt ≠ pOpt then some (.playerCount game_name curplayers)
      else if curplayers = 0 then some (.lastPlayerLeft game_name)
      else none
    | _ =>
      if curplayers = 0 then some (.lastPlayerLeft game_name)
      else none
  | _, _, _ => none

/-- update_server_tracking of v2/event_logic.py: the cursor stages the
serverTracking upsert, but the final commit statement refers to the name db,
which is unbound inside this function, so Python raises NameError and the
staged, uncommitted writes are rolled back when the connection closes. -/
def update_server_tracking (now : Nat) (data : PingData) (db : Db) : Except PyErr Db :=
  match data.serverurl, data.curplayers with
  | some url, some cur =>
    let _staged : List ServerRow :=
      match db.serverTracking.find? (fun r => r.serverurl == url) with
      | some r => db.serverTracking.map (fun q =>
          if q.serverurl == url then
            { q with currentplayers := cur, total_updates := r.total_updates + 1 }
          else q)
      | none => db.serverTracking ++
          [{ created := now, serverurl := url, currentplayers := cur, total_updates := 1 }]
    .error (.nameError "name db is not defined")
  | _, _ => .error (.keyError "serverurl")

/-- send_notifications of v2/event_logic.py: Discord first (a network
failure of requests.post propagates), then every opted-in SMS and WhatsApp
recipient; the v2 Twilio helpers swallow their own errors, so recipient
failures are recorded and never abort the loops. -/
def send_notifications (env : DispatchEnv) (alert : SyncAlert) (db : Db) :
    Except PyErr (List SendRec) :=
  if env.discordFail then .error .connectionError
  else
    let body := syncAlertText alert
    let smsRecs := ((db.users.filter (fun u => u.opt_in && u.utype == "S")).map
      (fun u => (⟨Chan.sms, u.phone_number, body, !env.smsFail u.phone_number⟩ : SendRec)))
    let waRecs := ((db.users.filter (fun u => u.opt_in && u.utype == "W")).map
      (fun u => (⟨Chan.whatsapp, u.phone_number, body, !env.waFail u.phone_number⟩ : SendRec)))
    .ok (⟨Chan.discord, "webhook", body, true⟩ :: smsRecs ++ waRecs)

/-- handle_game_event of v2/event_logic.py.  The first statement is the
no-argument get_db call, which raises TypeError; the remainder mirrors the
source (gameEvents insert, zero / non-zero classification, the
update_server_tracking call that would itself raise NameError, then the
fan-out) but is unreachable. -/
def handle_game_event (env : DispatchEnv) (now : Nat) (data : PingData) (db : Db) :
    Except PyErr (Db × List SendRec) := do
  let _conn ← get_db_call_noargs
  match data.curplayers, data.game, data.serverurl with
  | some curplayers, some game_name, some serverurl =>
    let db1 := { db with gameEvents := db.gameEvents ++ [{
        created := now, event_type := "POST", game := data.game, appkey := data.appkey,
        server := data.server, region := data.region, serverurl := data.serverurl,
        status := data.status, maxplayers := data.maxplayers,
        curplayers := data.curplayers }] }
    let step :=
      if curplayers = 0 then evaluate_server_sync now curplayers serverurl game_name db1
      else (evaluate_event_for_notification data db1, db1)
    let db3 ← update_server_tracking now data step.2
    match step.1 with
    | some a => do
      let sent ← send_notifications env a db3
      pure (db3, sent)
    | none => pure (db3, [])
  | _, _, _ => .error (.keyError "curplayers")

/-- The v2 POST /game route (v2/routes.py): 200 when handle_game_event
returns, 500 when it raises. -/
def json_post (env : DispatchEnv) (now : Nat) (data : PingData) (db : Db) : Nat :=
  match handle_game_event env now data db with
  | .ok _ => 200
  | .error _ => 500

end V2

/-- Dispatch environment in which every send succeeds. -/
def env0 : DispatchEnv := ⟨false, fun _ => false, fun _ => false⟩

/-- A logged ping with three players for the witness server URL. -/
def c1row : EventRow :=
  { created := 1, event_type := "POST", game := some "g1", appkey := some 1,
    server := some "srv", region := some "us", serverurl := some "http://h/x?table=g1",
    status := some "active", maxplayers := some 8, curplayers := some 3 }

/-- Database holding one prior ping with three players. -/
def c1state : Gas.GasState :=
  { gameEvents := [c1row], playerTracking := [⟨"g1", 3, 1, 1⟩],
    serverTracking := [⟨1, "http://h/x?table=g1", 3, 1⟩], users := [] }

/-- A ping raising the count of the witness server to five players. -/
def c1data : PingData :=
  { game := some "g1", appkey := some 1, server := some "srv", region := some "us",
    serverurl := some "http://h/x?table=g1", status := some "active",
    maxplayers := some 8, curplayers := some 5 }

/-- A ping lowering the count of the witness server to one player. -/
def c1dataLeave : PingData := { c1data with curplayers := some 1 }

/-- Database for the zero-transition check: the tracking row records two
players for the server URL before the ping arrives. -/
def c2state : Gas.GasState :=
  { gameEvents := [c1row], playerTracking := [⟨"g1", 2, 1, 1⟩],
    serverTracking := [⟨5, "http://h/x?table=g1", 2, 3⟩], users := [] }

/-- A zero-player ping for the tracked server. -/
def c2data : PingData := { c1data with curplayers := some 0 }

/-- v2 database for the heartbeat counterexample: the server has been
tracked at zero players since time 0, while the shared globalSync record
was advanced one second before the ping. -/
def c3db : V2.Db :=
  { gameEvents := [], serverTracking := [⟨0, "u", 0, 4⟩],
    globalSync := [⟨199999, "daily"⟩], users := [] }

/-- v2 database for the amended heartbeat theorem: one daily globalSync
record at time 0 and one server tracked at zero players. -/
def c3wdb : V2.Db :=
  { gameEvents := [], serverTracking := [⟨0, "u", 0, 1⟩],
    globalSync := [⟨0, "daily"⟩], users := [] }

/-- Empty database for the repeated-ping witness. -/
def c4state : Gas.GasState := ⟨[], [], [], []⟩

/-- A non-zero ping used twice in a row in the repeated-ping witness. -/
def c4data : PingData :=
  { game := some "g1", appkey := some 1, server := some "s", region := some "r",
    serverurl := some "u", status := some "active", maxplayers := some 8,
    curplayers := some 3 }

/-- Database for the deletion witness. -/
def c5state : Gas.GasState :=
  { gameEvents := [], playerTracking := [], serverTracking := [], users := [] }

/-- A deletion request carrying the witness server URL. -/
def c5data : PingData :=
  { game := none, appkey := none, server := none, region := none,
    serverurl := some "http://h/x?table=g1", status := none, maxplayers := none,
    curplayers := none }

/-- A ping missing the required game field. -/
def c6data : PingData :=
  { game := none, appkey := some 1, server := some "s", region := some "r",
    serverurl := some "u", status := none, maxplayers := none,
    curplayers := some 3 }

/-- Database with one opted-in SMS recipient and one prior one-player ping
for the witness server URL. -/
def c7state : Gas.GasState :=
  { gameEvents := [{ c1row with curplayers := some 1 }],
    playerTracking := [⟨"g1", 1, 1, 1⟩],
    serverTracking := [⟨1, "http://h/x?table=g1", 1, 1⟩],
    users := [⟨"p1", true, "S"⟩] }

/-- Environment in which the SMS send to p1 raises. -/
def c7env : DispatchEnv := ⟨false, fun p => p == "p1", fun _ => false⟩

/-- A two-player ping for the witness server (produces a join alert). -/
def c7data : PingData := { c1data with curplayers := some 2 }

/-- Database with two opted-in SMS recipients and one opted-in WhatsApp
recipient, plus one prior one-player ping for the witness server URL. -/
def c8state : Gas.GasState :=
  { gameEvents := [{ c1row with curplayers := some 1 }],
    playerTracking := [⟨"g1", 1, 1, 1⟩],
    serverTracking := [⟨1, "http://h/x?table=g1", 1, 1⟩],
    users := [⟨"p1", true, "S"⟩, ⟨"p2", true, "S"⟩, ⟨"p3", true, "W"⟩] }

/-- Membership in an insertDesc result comes from the inserted element or
the original list. -/
theorem mem_insertDesc {y e : EventRow} {l : List EventRow}
    (h : y ∈ insertDesc e l) : y = e ∨ y ∈ l := by
  induction l with
  | nil => simpa [insertDesc] using h
  | cons x xs ih =>
    by_cases hx : x.created ≤ e.created
    · simp only [insertDesc, if_pos hx, List.mem_cons] at h
      rcases h with h | h | h
      · exact Or.inl h
      · exact Or.inr (by simp [h])
      · exact Or.inr (by simp [h])
    · simp only [insertDesc, if_neg hx, List.mem_cons] at h
      rcases h with h | h
      · exact Or.inr (by simp [h])
      · rcases ih h with h2 | h2
        · exact Or.inl h2
        · exact Or.inr (by simp [h2])

/-- sortDesc only permutes: members of the output are members of the
input. -/
theorem mem_sortDesc {y : EventRow} {l : List EventRow}
    (h : y ∈ sortDesc l) : y ∈ l := by
  induction l with
  | nil => simp [sortDesc] at h
  | cons x xs ih =>
    simp only [sortDesc] at h
    rcases mem_insertDesc h with h2 | h2
    · simp [h2]
    · simp [ih h2]

/-- Inserting an element whose stamp dominates the whole list puts it in
front. -/
theorem insertDesc_eq_cons {e : EventRow} {l : List EventRow}
    (h : ∀ y ∈ l, y.created ≤ e.created) : insertDesc e l = e :: l := by
  cases l with
  | nil => rfl
  | cons x xs => simp [insertDesc, h x (by simp)]

/-- Sorting a list headed by an element whose stamp dominates the tail
keeps that element in front. -/
theorem sortDesc_cons_of_max {e : EventRow} {l : List EventRow}
    (h : ∀ y ∈ l, y.created ≤ e.created) : sortDesc (e :: l) = e :: sortDesc l := by
  simp only [sortDesc]
  exact insertDesc_eq_cons (fun y hy => h y (mem_sortDesc hy))

/-- Appending a matching row that is strictly newer than every logged event
puts its count in front of the recent-counts query result. -/
theorem recentCounts_append (events : List EventRow) (url : String) (row : EventRow)
    (hrow : row.serverurl = some url)
    (hmono : ∀ e ∈ events, e.created < row.created) :
    recentCounts (events ++ [row]) url = row.curplayers :: recentCounts events url := by
  unfold recentCounts
  rw [List.filter_append]
  have hfr : (([row] : List EventRow).filter (fun e => e.serverurl == some url)) = [row] := by
    simp [List.filter, hrow]
  rw [hfr, List.reverse_append]
  simp only [List.reverse_cons, List.reverse_nil, List.nil_append, List.cons_append,
    List.nil_append]
  rw [sortDesc_cons_of_max ?h]
  · simp
  case h =>
    intro y hy
    rw [List.mem_reverse] at hy
    exact le_of_lt (hmono y (List.mem_of_mem_filter hy))

namespace Gas

/-- The playerTracking upsert leaves gameEvents untouched. -/
theorem playerTrackingUpsert_gameEvents (now : Nat) (g : String) (cur : Int)
    (s : GasState) : (playerTrackingUpsert now g cur s).gameEvents = s.gameEvents := by
  unfold playerTrackingUpsert
  cases s.playerTracking.find? (fun r => r.game == g) <;> rfl

/-- The serverTracking upsert leaves gameEvents untouched. -/
theorem serverTrackingUpsert_gameEvents (now : Nat) (url : String) (cur : Int)
    (s : GasState) : (serverTrackingUpsert now url cur s).gameEvents = s.gameEvents := by
  unfold serverTrackingUpsert
  cases s.serverTracking.find? (fun r => r.serverurl == url) <;> rfl

/-- The playerTracking upsert leaves users untouched. -/
theorem playerTrackingUpsert_users (now : Nat) (g : String) (cur : Int)
    (s : GasState) : (playerTrackingUpsert now g cur s).users = s.users := by
  unfold playerTrackingUpsert
  cases s.playerTracking.find? (fun r => r.game == g) <;> rfl

/-- The serverTracking upsert leaves users untouched. -/
theorem serverTrackingUpsert_users (now : Nat) (url : String) (cur : Int)
    (s : GasState) : (serverTrackingUpsert now url cur s).users = s.users := by
  unfold serverTrackingUpsert
  cases s.serverTracking.find? (fun r => r.serverurl == url) <;> rfl

/-- After the three writes of json_post, the event log is the original log
plus the freshly appended row. -/
theorem tracked_gameEvents (now : Nat) (d : PingData) (url g : String) (cur : Int)
    (s : GasState) :
    (tracked now d url g cur s).gameEvents = s.gameEvents ++ [postRow now d] := by
  unfold tracked
  rw [serverTrackingUpsert_gameEvents, playerTrackingUpsert_gameEvents]
  rfl

/-- The three writes of json_post leave the users table untouched. -/
theorem tracked_users (now : Nat) (d : PingData) (url g : String) (cur : Int)
    (s : GasState) : (tracked now d url g cur s).users = s.users := by
  unfold tracked
  rw [serverTrackingUpsert_users, playerTrackingUpsert_users]
  rfl

/-- The recent-counts query over the updated state starts with the count of
the freshly appended row when every pre-existing event is older. -/
theorem recentCounts_tracked (now : Nat) (d : PingData) (url g : String) (cur : Int)
    (s : GasState) (hurl : d.serverurl = some url)
    (hmono : ∀ e ∈ s.gameEvents, e.created < now) :
    recentCounts (tracked now d url g cur s).gameEvents url =
      some (d.curplayers.getD 0) :: recentCounts s.gameEvents url := by
  rw [tracked_gameEvents]
  exact recentCounts_append s.gameEvents url (postRow now d) (by simp [postRow, hurl])
    (by simpa [postRow] using hmono)

/-- Reduction of json_post for a ping that passes the required-field check
and carries serverurl, game and curplayers. -/
theorem json_post_valid (now : Nat) (env : DispatchEnv) (data : PingData)
    (s : GasState) (url g : String) (c : Int)
    (hreq : missing_fields data = [])
    (hurl : data.serverurl = some url)
    (hgame : data.game = some g)
    (hcur : data.curplayers = some c) :
    json_post now env data s =
      match computeAlert (tracked now data url g c s) url
          (extract_url_and_table_param url).1 (extract_url_and_table_param url).2 c with
      | (_, true) => ⟨tracked now data url g c s, .err400, none, []⟩
      | (a, false) => ⟨tracked now data url g c s,
          (dispatch env (tracked now data url g c s) a).1, a,
          (dispatch env (tracked now data url g c s) a).2⟩ := by
  obtain ⟨dg, dak, dsv, drg, dsu, dst, dmx, dcp⟩ := data
  simp only at hurl hgame hcur
  subst hurl; subst hgame; subst hcur
  unfold json_post
  rw [if_neg (by simp [hreq])]

end Gas

namespace Gas

/-- A send loop over recipients none of whom fail attempts every recipient
and reports success. -/
theorem sendLoop_ok (fail : String → Bool) (ch : Chan) (body : String)
    (l : List String) (h : ∀ p ∈ l, fail p = false) :
    sendLoop fail ch body l = (l.map (fun p => ⟨ch, p, body, true⟩), true) := by
  induction l with
  | nil => rfl
  | cons p ps ih =>
    have hp : fail p = false := h p (by simp)
    simp [sendLoop, hp, ih (fun q hq => h q (by simp [hq]))]

/-- When no opted-in recipient send fails, the fan-out reports success,
whatever the webhook outcome. -/
theorem dispatch_resp_ok (env : DispatchEnv) (s3 : GasState) (a : Option Alert)
    (hs : ∀ p ∈ optedIn s3 "S", env.smsFail p = false)
    (hw : ∀ p ∈ optedIn s3 "W", env.waFail p = false) :
    (dispatch env s3 a).1 = Resp.ok200 := by
  cases a with
  | none => rfl
  | some al =>
    simp [dispatch, sendLoop_ok env.smsFail Chan.sms (alertText al) (optedIn s3 "S") hs,
      sendLoop_ok env.waFail Chan.whatsapp (alertText al) (optedIn s3 "W") hw]

/-- The non-webhook part of the fan-out does not depend on the webhook
outcome. -/
theorem dispatch_sends_nondiscord (env : DispatchEnv) (b : Bool) (s3 : GasState)
    (a : Option Alert) :
    ((dispatch { env with discordFail := b } s3 a).2.filter
        (fun r => !(r.channel == Chan.discord))) =
      ((dispatch env s3 a).2.filter (fun r => !(r.channel == Chan.discord))) := by
  cases a with
  | none => rfl
  | some al =>
    show ((if (sendLoop env.smsFail .sms (alertText al) (optedIn s3 "S")).2 then _ else _ :
        Resp × List SendRec).2.filter _) = _
    by_cases h2 : (sendLoop env.smsFail Chan.sms (alertText al) (optedIn s3 "S")).2
    · simp only [dispatch, h2, if_true]
      simp [List.filter_cons, show (Chan.discord == Chan.discord) = true from rfl]
    · simp only [dispatch, h2, Bool.false_eq_true, if_false]
      simp [List.filter_cons, show (Chan.discord == Chan.discord) = true from rfl]

end Gas

/-- C1: for every non-zero ping whose server URL has, after the append, at
least two event-log entries and whose two most recent counts differ,
json_post produces exactly one player-change alert: a join when the count
increased and a leave when it decreased, carrying the base URL of the
server, the table parameter naming the game, and the new count. -/
theorem c1_player_change_direction (now : Nat) (env : DispatchEnv) (data : PingData)
    (s : Gas.GasState) (url g : String) (c p : Int)
    (hreq : Gas.missing_fields data = [])
    (hurl : data.serverurl = some url)
    (hgame : data.game = some g)
    (hcur : data.curplayers = some c)
    (hc0 : c ≠ 0)
    (hmono : ∀ e ∈ s.gameEvents, e.created < now)
    (hprev : (recentCounts s.gameEvents url).head? = some (some p))
    (hne : p ≠ c) :
    (Gas.json_post now env data s).alert =
      some (if p < c then
          Gas.Alert.playerJoin (extract_url_and_table_param url).1
            (extract_url_and_table_param url).2 c
        else
          Gas.Alert.playerLeave (extract_url_and_table_param url).1
            (extract_url_and_table_param url).2 c) := by
  have hq : Gas.recentCountsQuery (Gas.tracked now data url g c s) url = [some c, some p] := by
    unfold Gas.recentCountsQuery
    rw [Gas.recentCounts_tracked now data url g c s hurl hmono, hcur, Option.getD_some]
    obtain ⟨t, ht⟩ : ∃ t, recentCounts s.gameEvents url = some p :: t := by
      cases hrec : recentCounts s.gameEvents url with
      | nil => rw [hrec] at hprev; simp at hprev
      | cons a t =>
        rw [hrec] at hprev
        simp only [List.head?_cons, Option.some.injEq] at hprev
        exact ⟨t, by rw [hprev]⟩
    rw [ht]
    rfl
  have hca : Gas.computeAlert (Gas.tracked now data url g c s) url
      (extract_url_and_table_param url).1 (extract_url_and_table_param url).2 c =
      (some (if p < c then
          Gas.Alert.playerJoin (extract_url_and_table_param url).1
            (extract_url_and_table_param url).2 c
        else
          Gas.Alert.playerLeave (extract_url_and_table_param url).1
            (extract_url_and_table_param url).2 c), false) := by
    unfold Gas.computeAlert
    rw [if_pos hc0, hq]
    rcases lt_or_gt_of_ne hne with hlt | hgt
    · simp [hlt]
    · simp [hgt, show ¬ p < c from not_lt.mpr (le_of_lt hgt)]
  rw [Gas.json_post_valid now env data s url g c hreq hurl hgame hcur, hca]

/-- Witness for C1: last logged count three, incoming count five, one join
alert named with base URL, table parameter and the new count. -/
theorem c1_witness :
    (Gas.json_post 2 env0 c1data c1state).alert =
      some (Gas.Alert.playerJoin "http://h/x" (some "g1") 5) := by
  have h := c1_player_change_direction 2 env0 c1data c1state "http://h/x?table=g1" "g1" 5 3
    rfl rfl rfl rfl (by decide) (by decide) (by decide) (by decide)
  rw [h]
  decide

/-- Helper for C4: a valid non-zero ping with no prior logged entry for the
URL, or whose most recent logged count equals the incoming count, yields no
alert. -/
theorem nonzero_guard_no_alert (now : Nat) (env : DispatchEnv) (data : PingData)
    (s : Gas.GasState) (url g : String) (c : Int)
    (hreq : Gas.missing_fields data = [])
    (hurl : data.serverurl = some url)
    (hgame : data.game = some g)
    (hcur : data.curplayers = some c)
    (hc0 : c ≠ 0)
    (hmono : ∀ e ∈ s.gameEvents, e.created < now)
    (hguard : recentCounts s.gameEvents url = [] ∨
      (recentCounts s.gameEvents url).head? = some (some c)) :
    (Gas.json_post now env data s).alert = none := by
  rw [Gas.json_post_valid now env data s url g c hreq hurl hgame hcur]
  rcases hguard with hg | hg
  · have hq : Gas.recentCountsQuery (Gas.tracked now data url g c s) url = [some c] := by
      unfold Gas.recentCountsQuery
      rw [Gas.recentCounts_tracked now data url g c s hurl hmono, hcur, Option.getD_some, hg]
      rfl
    have hca : Gas.computeAlert (Gas.tracked now data url g c s) url
        (extract_url_and_table_param url).1 (extract_url_and_table_param url).2 c =
        (none, false) := by
      unfold Gas.computeAlert
      rw [if_pos hc0, hq]
    rw [hca]
  · obtain ⟨t, ht⟩ : ∃ t, recentCounts s.gameEvents url = some c :: t := by
      cases hrec : recentCounts s.gameEvents url with
      | nil => rw [hrec] at hg; simp at hg
      | cons a t =>
        rw [hrec] at hg
        simp only [List.head?_cons, Option.some.injEq] at hg
        exact ⟨t, by rw [hg]⟩
    have hq : Gas.recentCountsQuery (Gas.tracked now data url g c s) url = [some c, some c] := by
      unfold Gas.recentCountsQuery
      rw [Gas.recentCounts_tracked now data url g c s hurl hmono, hcur, Option.getD_some, ht]
      rfl
    have hca : Gas.computeAlert (Gas.tracked now data url g c s) url
        (extract_url_and_table_param url).1 (extract_url_and_table_param url).2 c =
        (none, false) := by
      unfold Gas.computeAlert
      rw [if_pos hc0, hq]
      simp
    rw [hca]

/-- C4: a non-zero ping for a server URL with fewer than two log entries
even after the append, or whose two most recent logged counts are equal,
yields no alert; and in particular the same valid non-zero ping submitted
twice in a row yields no alert on the second, identical submission. -/
theorem c4_resync_pings_no_alert :
    (∀ (now : Nat) (env : DispatchEnv) (data : PingData) (s : Gas.GasState)
        (url g : String) (c : Int),
      Gas.missing_fields data = [] → data.serverurl = some url →
      data.game = some g → data.curplayers = some c → c ≠ 0 →
      (∀ e ∈ s.gameEvents, e.created < now) →
      (recentCounts s.gameEvents url = [] ∨
        (recentCounts s.gameEvents url).head? = some (some c)) →
      (Gas.json_post now env data s).alert = none) ∧
    (∀ (now1 now2 : Nat) (env1 env2 : DispatchEnv) (data : PingData) (s : Gas.GasState)
        (url g : String) (c : Int),
      Gas.missing_fields data = [] → data.serverurl = some url →
      data.game = some g → data.curplayers = some c → c ≠ 0 →
      (∀ e ∈ s.gameEvents, e.created < now1) → now1 < now2 →
      (Gas.json_post now2 env2 data (Gas.json_post now1 env1 data s).state).alert = none) := by
  constructor
  · intro now env data s url g c hreq hurl hgame hcur hc0 hmono hguard
    exact nonzero_guard_no_alert now env data s url g c hreq hurl hgame hcur hc0 hmono hguard
  · intro now1 now2 env1 env2 data s url g c hreq hurl hgame hcur hc0 hmono h12
    have hstate : (Gas.json_post now1 env1 data s).state = Gas.tracked now1 data url g c s := by
      rw [Gas.json_post_valid now1 env1 data s url g c hreq hurl hgame hcur]
      rcases hca : Gas.computeAlert (Gas.tracked now1 data url g c s) url
          (extract_url_and_table_param url).1 (extract_url_and_table_param url).2 c with ⟨a, b⟩
      cases b <;> rfl
    rw [hstate]
    apply nonzero_guard_no_alert now2 env2 data (Gas.tracked now1 data url g c s) url g c
      hreq hurl hgame hcur hc0
    · intro e he
      rw [Gas.tracked_gameEvents] at he
      rcases List.mem_append.mp he with h | h
      · exact lt_trans (hmono e h) h12
      · rw [List.mem_singleton] at h
        rw [h]
        simpa [Gas.postRow] using h12
    · right
      rw [Gas.recentCounts_tracked now1 data url g c s hurl hmono, hcur, Option.getD_some]
      rfl

/-- Witness for C4: an empty log yields no alert on the first non-zero
ping, and the identical second ping yields none either. -/
theorem c4_witness :
    (Gas.json_post 1 env0 c4data c4state).alert = none ∧
    (Gas.json_post 2 env0 c4data (Gas.json_post 1 env0 c4data c4state).state).alert = none :=
  ⟨c4_resync_pings_no_alert.1 1 env0 c4data c4state "u" "g1" 3 rfl rfl rfl rfl
      (by decide) (by decide) (Or.inl (by decide)),
   c4_resync_pings_no_alert.2 1 2 env0 env0 c4data c4state "u" "g1" 3 rfl rfl rfl rfl
      (by decide) (by decide) (by decide)⟩

/-- C5: a deletion request carrying a non-empty server URL, whatever the
tracker history, appends exactly one DELETE log row, leaves the player and
server tracking tables and the users table untouched, and produces exactly
one deletion alert, dispatched to the webhook only. -/
theorem c5_deletion_always_alerts (now : Nat) (env : DispatchEnv) (data : PingData)
    (s : Gas.GasState) (url : String)
    (hurl : data.serverurl = some url) (hne : url ≠ "") :
    Gas.delete_event now env data s =
      ⟨{ s with gameEvents := s.gameEvents ++ [Gas.deleteRow now url] }, Gas.Resp.ok200,
        some (Gas.Alert.serverDeleted (extract_url_and_table_param url).1
          (extract_url_and_table_param url).2),
        [⟨Chan.discord, "webhook",
          Gas.alertText (Gas.Alert.serverDeleted (extract_url_and_table_param url).1
            (extract_url_and_table_param url).2), !env.discordFail⟩]⟩ := by
  unfold Gas.delete_event
  simp only [hurl]
  rw [if_neg hne]

/-- Witness for C5 at a concrete deletion request. -/
theorem c5_witness :
    Gas.delete_event 3 env0 c5data c5state =
      ⟨{ c5state with gameEvents :=
          c5state.gameEvents ++ [Gas.deleteRow 3 "http://h/x?table=g1"] }, Gas.Resp.ok200,
        some (Gas.Alert.serverDeleted (extract_url_and_table_param "http://h/x?table=g1").1
          (extract_url_and_table_param "http://h/x?table=g1").2),
        [⟨Chan.discord, "webhook",
          Gas.alertText (Gas.Alert.serverDeleted
            (extract_url_and_table_param "http://h/x?table=g1").1
            (extract_url_and_table_param "http://h/x?table=g1").2), !env0.discordFail⟩]⟩ :=
  c5_deletion_always_alerts 3 env0 c5data c5state "http://h/x?table=g1" rfl (by decide)

/-- C6: a ping missing one of the required fields (game, appkey, server,
region) is rejected with no state mutation at all: the returned database is
the input database, no alert is computed and no send is attempted. -/
theorem c6_malformed_rejected_before_writes (now : Nat) (env : DispatchEnv)
    (data : PingData) (s : Gas.GasState)
    (hmiss : Gas.missing_fields data ≠ []) :
    Gas.json_post now env data s = ⟨s, Gas.Resp.err400, none, []⟩ := by
  unfold Gas.json_post
  rw [if_pos hmiss]

/-- Witness for C6 at a ping missing the required game field. -/
theorem c6_witness :
    Gas.missing_fields c6data ≠ [] ∧
    Gas.json_post 1 env0 c6data c4state = ⟨c4state, Gas.Resp.err400, none, []⟩ :=
  ⟨by decide, c6_malformed_rejected_before_writes 1 env0 c6data c4state (by decide)⟩

/-- C2 (code evaluation): in gas.py the serverTracking upsert runs before
the zero-player branch, so that branch reads the already-updated count 0
and never alerts.  At a tracked count of two and a zero ping, json_post
answers 200, overwrites the tracking row with count 0, and produces no
alert at all, where the claim expects exactly one last-player-left
alert. -/
theorem c2_zero_transition_emits_nothing :
    c2state.serverTracking = [⟨5, "http://h/x?table=g1", 2, 3⟩] ∧
    (Gas.json_post 20 env0 c2data c2state).state.serverTracking =
      [⟨5, "http://h/x?table=g1", 0, 4⟩] ∧
    (Gas.json_post 20 env0 c2data c2state).alert = none ∧
    (Gas.json_post 20 env0 c2data c2state).resp = Gas.Resp.ok200 :=
  ⟨by decide, by decide, by decide, by decide⟩

/-- C7 (counterexample): a valid two-player ping is durably recorded (the
log grows and the tracking row is updated) and produces an alert, the SMS
send to the opted-in recipient p1 raises, and the caller receives the
error response instead of success, so a dispatch error does surface. -/
theorem c7_counterexample :
    (Gas.json_post 20 c7env c7data c7state).state.gameEvents.length =
      c7state.gameEvents.length + 1 ∧
    (Gas.json_post 20 c7env c7data c7state).state.serverTracking =
      [⟨1, "http://h/x?table=g1", 2, 2⟩] ∧
    (Gas.json_post 20 c7env c7data c7state).alert.isSome = true ∧
    (Gas.json_post 20 c7env c7data c7state).resp = Gas.Resp.err400 :=
  ⟨by decide, by decide, by decide, by decide⟩

/-- C7 (amended): a webhook failure never surfaces: a valid recorded ping
whose opted-in recipient sends all succeed is answered 200 whatever the
Discord outcome; a failing SMS or WhatsApp recipient send, by contrast,
propagates to the caller.  The hypotheses require the most recent prior log
entry for the URL, when one exists, to carry a player count (a NULL count
makes the Python comparison raise on its own). -/
theorem c7_recorded_ping_succeeds (now : Nat) (env : DispatchEnv) (data : PingData)
    (s : Gas.GasState) (url g : String) (c : Int)
    (hreq : Gas.missing_fields data = [])
    (hurl : data.serverurl = some url)
    (hgame : data.game = some g)
    (hcur : data.curplayers = some c)
    (hmono : ∀ e ∈ s.gameEvents, e.created < now)
    (hpre : (recentCounts s.gameEvents url).head? ≠ some none)
    (hs : ∀ p ∈ Gas.optedIn s "S", env.smsFail p = false)
    (hw : ∀ p ∈ Gas.optedIn s "W", env.waFail p = false) :
    (Gas.json_post now env data s).resp = Gas.Resp.ok200 := by
  have husers : (Gas.tracked now data url g c s).users = s.users :=
    Gas.tracked_users now data url g c s
  have hsS : ∀ p ∈ Gas.optedIn (Gas.tracked now data url g c s) "S",
      env.smsFail p = false := by
    unfold Gas.optedIn
    rw [husers]
    exact hs
  have hsW : ∀ p ∈ Gas.optedIn (Gas.tracked now data url g c s) "W",
      env.waFail p = false := by
    unfold Gas.optedIn
    rw [husers]
    exact hw
  have herr : (Gas.computeAlert (Gas.tracked now data url g c s) url
      (extract_url_and_table_param url).1 (extract_url_and_table_param url).2 c).2 =
      false := by
    by_cases hc : c = 0
    · subst hc
      unfold Gas.computeAlert
      rw [if_neg (by simp)]
      rcases hf : (Gas.tracked now data url g 0 s).serverTracking.find?
          (fun r => r.serverurl == url) with _ | row
      · simp [hf]
      · simp only [hf]
        by_cases hrow : row.currentplayers ≠ 0
        · rw [if_pos hrow]
        · rw [if_neg hrow]
    · unfold Gas.computeAlert
      rw [if_pos hc]
      have hq2 : Gas.recentCountsQuery (Gas.tracked now data url g c s) url =
          (some c :: recentCounts s.gameEvents url).take 2 := by
        unfold Gas.recentCountsQuery
        rw [Gas.recentCounts_tracked now data url g c s hurl hmono, hcur, Option.getD_some]
      rw [hq2]
      rcases hrest : recentCounts s.gameEvents url with _ | ⟨pOpt, t⟩
      · rfl
      · rcases pOpt with _ | p
        · exact absurd (by rw [hrest]; rfl) hpre
        · by_cases hlt : p < c
          · simp [hlt]
          · by_cases hgt : p > c
            · simp [hlt, hgt]
            · simp [hlt, hgt]
  rw [Gas.json_post_valid now env data s url g c hreq hurl hgame hcur]
  rcases hca : Gas.computeAlert (Gas.tracked now data url g c s) url
      (extract_url_and_table_param url).1 (extract_url_and_table_param url).2 c with ⟨a, er⟩
  rw [hca] at herr
  cases er
  · exact Gas.dispatch_resp_ok env (Gas.tracked now data url g c s) a hsS hsW
  · simp at herr

/-- Witness for C7 at a concrete valid ping with an arbitrary webhook
outcome and no failing recipient. -/
theorem c7_witness :
    (Gas.json_post 2 ⟨true, fun _ => false, fun _ => false⟩ c1data c1state).resp =
      Gas.Resp.ok200 :=
  c7_recorded_ping_succeeds 2 ⟨true, fun _ => false, fun _ => false⟩ c1data c1state
    "http://h/x?table=g1" "g1" 5 rfl rfl rfl rfl (by decide) (by decide)
    (by intro p hp; simp [Gas.optedIn, c1state] at hp) (by intro p hp; simp [Gas.optedIn, c1state] at hp)

/-- C8 (counterexample): with opted-in recipients p1 and p2 on SMS and p3
on WhatsApp, a failing send to p1 aborts the fan-out: only the webhook and
p1 are attempted, and p2 and p3 are skipped, so a failure to deliver to one
recipient does abort delivery to the remaining ones. -/
theorem c8_counterexample :
    Gas.optedIn c8state "S" = ["p1", "p2"] ∧
    Gas.optedIn c8state "W" = ["p3"] ∧
    (Gas.json_post 20 c7env c7data c8state).alert.isSome = true ∧
    (Gas.json_post 20 c7env c7data c8state).sends.map (fun r => r.target) =
      ["webhook", "p1"] :=
  ⟨by decide, by decide, by decide, by decide⟩

/-- C8 (amended): the committed tracker and log state never depends on any
dispatch outcome (no rollback), and a webhook failure does not change the
recipient sends that are attempted; a failing recipient send, by contrast,
aborts delivery to every remaining recipient on both channels (see the
counterexample). -/
theorem c8_state_committed_webhook_isolated :
    (∀ (now : Nat) (env env2 : DispatchEnv) (data : PingData) (s : Gas.GasState),
      (Gas.json_post now env data s).state = (Gas.json_post now env2 data s).state) ∧
    (∀ (now : Nat) (env : DispatchEnv) (b : Bool) (data : PingData) (s : Gas.GasState),
      ((Gas.json_post now { env with discordFail := b } data s).sends.filter
          (fun r => !(r.channel == Chan.discord))) =
        ((Gas.json_post now env data s).sends.filter
          (fun r => !(r.channel == Chan.discord)))) := by
  constructor
  · intro now env env2 data s
    by_cases h : Gas.missing_fields data = []
    · rcases hu : data.serverurl with _ | url
      · unfold Gas.json_post
        rw [if_neg (by simp [h]), if_neg (by simp [h])]
        simp only [hu]
      · rcases hg : data.game with _ | g
        · unfold Gas.json_post
          rw [if_neg (by simp [h]), if_neg (by simp [h])]
          simp only [hu, hg]
        · rcases hc : data.curplayers with _ | c
          · unfold Gas.json_post
            rw [if_neg (by simp [h]), if_neg (by simp [h])]
            simp only [hu, hg, hc]
          · rw [Gas.json_post_valid now env data s url g c h hu hg hc,
              Gas.json_post_valid now env2 data s url g c h hu hg hc]
            rcases hca : Gas.computeAlert (Gas.tracked now data url g c s) url
                (extract_url_and_table_param url).1 (extract_url_and_table_param url).2 c
              with ⟨a, er⟩
            cases er <;> rfl
    · unfold Gas.json_post
      rw [if_pos h, if_pos h]
  · intro now env b data s
    by_cases h : Gas.missing_fields data = []
    · rcases hu : data.serverurl with _ | url
      · unfold Gas.json_post
        rw [if_neg (by simp [h]), if_neg (by simp [h])]
        simp only [hu]
      · rcases hg : data.game with _ | g
        · unfold Gas.json_post
          rw [if_neg (by simp [h]), if_neg (by simp [h])]
          simp only [hu, hg]
        · rcases hc : data.curplayers with _ | c
          · unfold Gas.json_post
            rw [if_neg (by simp [h]), if_neg (by simp [h])]
            simp only [hu, hg, hc]
          · rw [Gas.json_post_valid now { env with discordFail := b } data s url g c h hu hg hc,
              Gas.json_post_valid now env data s url g c h hu hg hc]
            rcases hca : Gas.computeAlert (Gas.tracked now data url g c s) url
                (extract_url_and_table_param url).1 (extract_url_and_table_param url).2 c
              with ⟨a, er⟩
            cases er
            · exact Gas.dispatch_sends_nondiscord env b (Gas.tracked now data url g c s) a
            · rfl
    · unfold Gas.json_post
      rw [if_pos h, if_pos h]

/-- C3 (counterexample): the server has been tracked at zero players since
time 0 and more than 24 hours (86400 seconds) have elapsed since every
timestamp recorded for it, yet the zero-player ping at time 200000 emits no
heartbeat and advances nothing, because the shared globalSync record was
advanced one second earlier by a different server: the 24 hour window is
global, not that server's lastSyncAt. -/
theorem c3_counterexample :
    c3db.serverTracking.find? (fun r => r.serverurl == "u") = some ⟨0, "u", 0, 4⟩ ∧
    86400 ≤ 200000 - (0 : Nat) ∧
    V2.evaluate_server_sync 200000 0 "u" "g" c3db = (none, c3db) :=
  ⟨by decide, by decide, by decide⟩

/-- C3 (amended): the 24 hour suppression window is global.  For a server
tracked at zero players, with the single daily globalSync record at time t:
a zero ping earlier than t plus 24 hours emits nothing and leaves the state
unchanged; a zero ping at or after t plus 24 hours emits exactly one daily
status alert and advances the global record to now, so a further zero ping
one second later emits nothing. -/
theorem c3_heartbeat_global_window (now t : Nat) (u g : String) (db : V2.Db)
    (row : ServerRow)
    (hfind : db.serverTracking.find? (fun r => r.serverurl == u) = some row)
    (hzero : row.currentplayers = 0)
    (hsync : db.globalSync = [⟨t, "daily"⟩]) :
    (¬ (t + 86400 ≤ now) → V2.evaluate_server_sync now 0 u g db = (none, db)) ∧
    (t + 86400 ≤ now →
      (V2.evaluate_server_sync now 0 u g db).1 =
          some (V2.SyncAlert.dailyStatus (V2.get_active_servers db)) ∧
      (V2.evaluate_server_sync now 0 u g db).2.globalSync = [⟨now, "daily"⟩] ∧
      (V2.evaluate_server_sync (now + 1) 0 u g
        (V2.evaluate_server_sync now 0 u g db).2).1 = none) := by
  have hls : V2.lastDailySync? db = some t := by
    unfold V2.lastDailySync?
    rw [hsync]
    rfl
  constructor
  · intro hlt
    have hcgs : V2.check_global_sync now db = (false, db) := by
      unfold V2.check_global_sync
      simp only [hls]
      rw [if_neg hlt]
    unfold V2.evaluate_server_sync
    simp only [hfind]
    rw [if_neg (by simp [hzero]), if_pos trivial, hcgs]
  · intro hge
    have hcgs : V2.check_global_sync now db =
        (true, { db with globalSync := [⟨now, "daily"⟩] }) := by
      unfold V2.check_global_sync
      simp only [hls]
      rw [if_pos hge, hsync]
      rfl
    have heval : V2.evaluate_server_sync now 0 u g db =
        (some (V2.SyncAlert.dailyStatus
          (V2.get_active_servers { db with globalSync := [⟨now, "daily"⟩] })),
         { db with globalSync := [⟨now, "daily"⟩] }) := by
      unfold V2.evaluate_server_sync
      simp only [hfind]
      rw [if_neg (by simp [hzero]), if_pos trivial, hcgs]
    refine ⟨?_, ?_, ?_⟩
    · rw [heval]
      rfl
    · rw [heval]
    · rw [heval]
      have hfind2 : ({ db with globalSync := [⟨now, "daily"⟩] } : V2.Db).serverTracking.find?
          (fun r => r.serverurl == u) = some row := hfind
      have hls2 : V2.lastDailySync? { db with globalSync := [⟨now, "daily"⟩] } = some now := by
        unfold V2.lastDailySync?
        rfl
      have hcgs2 : V2.check_global_sync (now + 1) { db with globalSync := [⟨now, "daily"⟩] } =
          (false, { db with globalSync := [⟨now, "daily"⟩] }) := by
        unfold V2.check_global_sync
        simp only [hls2]
        rw [if_neg (by omega)]
      unfold V2.evaluate_server_sync
      simp only [hfind2]
      rw [if_neg (by simp [hzero]), if_pos trivial, hcgs2]

/-- Witness for C3 (amended) at a concrete database with the daily record
at time 0 and a ping at time 90000. -/
theorem c3_witness :
    (¬ ((0 : Nat) + 86400 ≤ 90000) →
      V2.evaluate_server_sync 90000 0 "u" "g" c3wdb = (none, c3wdb)) ∧
    ((0 : Nat) + 86400 ≤ 90000 →
      (V2.evaluate_server_sync 90000 0 "u" "g" c3wdb).1 =
          some (V2.SyncAlert.dailyStatus (V2.get_active_servers c3wdb)) ∧
      (V2.evaluate_server_sync 90000 0 "u" "g" c3wdb).2.globalSync = [⟨90000, "daily"⟩] ∧
      (V2.evaluate_server_sync (90000 + 1) 0 "u" "g"
        (V2.evaluate_server_sync 90000 0 "u" "g" c3wdb).2).1 = none) :=
  c3_heartbeat_global_window 90000 0 "u" "g" c3wdb ⟨0, "u", 0, 1⟩ (by decide) rfl rfl

/-- C10: the v2 pipeline always raises before dispatching anything: the
first statement of handle_game_event is the no-argument get_db call (get_db
in v2/db.py requires the Flask app parameter), so every invocation returns
the TypeError before any insert, classification or send, and the v2 route
answers 500; independently, update_server_tracking always raises on its
own, because its commit refers to the unbound name db. -/
theorem c10_v2_pipeline_always_raises (env : DispatchEnv) (now : Nat) (data : PingData)
    (db : V2.Db) :
    V2.handle_game_event env now data db =
      .error (.typeError "get_db() missing 1 required positional argument: app") ∧
    V2.json_post env now data db = 500 ∧
    ∃ e, V2.update_server_tracking now data db = .error e := by
  refine ⟨rfl, rfl, ?_⟩
  rcases h1 : data.serverurl with _ | url <;> rcases h2 : data.curplayers with _ | cur <;>
    simp [V2.update_server_tracking, h1, h2]
